import Mathlib

/-!
Verification development for the acfunlivedb live-session monitor.

The Go program polls an upstream listing endpoint for the set of currently
active live sessions, diffs each snapshot against the previous one to detect
session starts and ends, and launches background enrichment fetches
(cut-number lookup on start, summary/duration lookup on end) whose results
are written to a durable store.

The shallow embedding below translates the relevant Go functions:
  - the `live` record (struct `live` in the source),
  - the bounded retry wrapper `runThrice`,
  - the snapshot fetcher `fetchLiveList` (its page-size escalation loop,
    with the HTTP/JSON transport abstracted as an oracle giving the
    upstream's response for each requested page size),
  - the cut-number fetcher `fetchLiveCut` (with the regexp
    extraction of the numeric run implemented character by character),
  - the reconciliation loop body of `main` (started/ended diff, the
    hardcoded ownership filter `uid == 646973`, the persistence calls and
    the spawned enrichment tasks recorded as explicit action/task lists),
  - the post-processing step of `getPlayback` (CDN disambiguation, with
    the external `Playback.Distinguish` collaborator as an oracle).

Go panics that the source recovers into error returns are modelled as
explicit error values; network responses are oracles; `time.Sleep` calls
are modelled by accounting the slept seconds.  Object pooling
(`livePool`) is an allocation optimisation with no observable effect on
the values modelled here and is omitted.
-/

/-- The session record (struct `live` in the Go source).  Go `int` and
`int64` fields are modelled as `Int`, strings as `String`. -/
structure live where
  liveID      : String
  uid         : Int
  name        : String
  streamName  : String
  startTime   : Int
  title       : String
  duration    : Int
  playbackURL : String
  backupURL   : String
  liveCutNum  : Int
  deriving DecidableEq, Repr

/-! ### Reconciler: the snapshot diff performed by `main`'s loop

A Go `map[string]*live` keyed by `liveID` is modelled as a `List live`;
key membership is membership of the `liveID` among the list's ids.  The
loop ranges over `newList` and treats an entry as started when its
`liveID` is absent from `oldList`, and ranges over `oldList` treating an
entry as ended when its `liveID` is absent from `newList`.  The loops
only read both maps, so the diff is pure. -/

/-- The ids (map keys) of a snapshot. -/
def liveIDs (l : List live) : List String := l.map (fun x => x.liveID)

/-- Sessions of `cur` whose id is absent from `prev`
(the `if _, ok := oldList[l.liveID]; !ok` test of the first loop). -/
def started (prev cur : List live) : List live :=
  cur.filter (fun l => decide (l.liveID ∉ liveIDs prev))

/-- Sessions of `prev` whose id is absent from `cur`
(the `if _, ok := newList[l.liveID]; !ok` test of the second loop). -/
def ended (prev cur : List live) : List live :=
  prev.filter (fun l => decide (l.liveID ∉ liveIDs cur))

/-- Sessions of `cur` whose id is also present in `prev` (the sessions
present in both snapshots). -/
def continuing (prev cur : List live) : List live :=
  cur.filter (fun l => decide (l.liveID ∈ liveIDs prev))

/-! ### Retry executor `runThrice`

`runThrice` runs `f` up to three times; a success returns immediately,
each failure is logged and followed by a 10-second sleep (including the
failure of the third attempt), and after three failures an aggregate
error wrapping the last underlying error is returned.

The operation is modelled as an oracle `f : Nat → Except E A` giving the
outcome of the i-th invocation.  The result records the returned value,
the number of invocations and the total seconds slept; the aggregate
error carries the last underlying cause as `some e` (`none` would need
the loop to end with no failed attempt, which cannot happen from the
entry point). -/

/-- Result of a `runThrice` call: value returned, number of invocations
of the operation, and total seconds spent in `time.Sleep`. -/
structure RTRes (E A : Type) where
  result : Except (Option E) A
  calls  : Nat
  slept  : Nat

/-- The loop of `runThrice`:  `remaining` counts the loop iterations still
allowed (`3 - retry` for the Go loop counter `retry`), `calls` and `slept`
accumulate, `last` is the last error seen. -/
def runThriceAux {E A : Type} (f : Nat → Except E A) :
    Nat → Nat → Nat → Option E → RTRes E A
  | 0, calls, slept, last => ⟨.error last, calls, slept⟩
  | r + 1, calls, slept, _last =>
    match f calls with
    | .ok a => ⟨.ok a, calls + 1, slept⟩
    | .error e => runThriceAux f r (calls + 1) (slept + 10) (some e)

/-- `runThrice` from the Go source: three attempts, 10 seconds of sleep
after every failed attempt. -/
def runThrice {E A : Type} (f : Nat → Except E A) : RTRes E A :=
  runThriceAux f 3 0 0 none

/-! ### Cut-number extraction and `fetchLiveCut`

`fetchLiveCut` recovers every internal panic into an error return with
`num = 0`.  The HTTP/JSON layers are abstracted as a `CutResp` oracle:
a transport failure, an unparseable body (parse or gunzip failure), a
missing/non-zero `result` code, or a parsed response carrying
`liveCutStatus` and `liveCutUrl`.

The regexp `/[0-9]+` applied with `FindAllString(url, -1)` yields the
successive non-overlapping leftmost-longest matches: each `/` followed by
a maximal non-empty run of ASCII digits.  `scanAux` computes the same
list by a single left-to-right scan (`some acc` is the state "a `/` was
read and `acc` holds the digits matched so far, reversed"). -/

/-- Left-to-right scan computing the matches of `/[0-9]+`. -/
def scanAux : List Char → Option (List Char) → List String
  | [], none => []
  | [], some acc => if acc = [] then [] else [String.mk ('/' :: acc.reverse)]
  | c :: rest, none =>
      if c = '/' then scanAux rest (some []) else scanAux rest none
  | c :: rest, some acc =>
      if c.isDigit then scanAux rest (some (c :: acc))
      else if acc = [] then
        (if c = '/' then scanAux rest (some []) else scanAux rest none)
      else
        String.mk ('/' :: acc.reverse) ::
          (if c = '/' then scanAux rest (some []) else scanAux rest none)

/-- `regexp.MustCompile("/[0-9]+").FindAllString(url, -1)` from the source. -/
def findSlashNumRuns (url : String) : List String := scanAux url.data none

/-- Numeric value of a digit string (`strconv.Atoi` on a run of digits). -/
def digitsVal (l : List Char) : Nat :=
  l.foldl (fun acc c => acc * 10 + (c.toNat - '0'.toNat)) 0

/-- Upstream response to the cut-info request, as observed by
`fetchLiveCut` after transport/gunzip/JSON handling. -/
inductive CutResp where
  | transportFail                                  -- `client.Do` failed
  | unparseable                                    -- gunzip or JSON parse failed
  | badResult                                      -- `result` missing or ≠ 0
  | ok (liveCutStatus : Int) (liveCutUrl : String) -- parsed, `result` = 0
  deriving DecidableEq, Repr

/-- Failure reasons of `fetchLiveCut` (each a recovered panic). -/
inductive CutErr where
  | transport   -- `checkErr` on the transport error
  | parse       -- `checkErr` on gunzip / `ParseBytes`
  | status      -- the `result` check panicked
  | extraction  -- `len(nums) != 1`
  | atoiRange   -- `strconv.Atoi` out of 64-bit range
  deriving DecidableEq, Repr

/-- `fetchLiveCut` from the Go source: returns the pair `(num, e)` of its
named return values.  Every panic is recovered by the deferred handler
into `num = 0` with a non-nil error. -/
def fetchLiveCut (resp : CutResp) : Nat × Option CutErr :=
  match resp with
  | .transportFail => (0, some .transport)
  | .unparseable => (0, some .parse)
  | .badResult => (0, some .status)
  | .ok status url =>
    if status ≠ 1 then (0, none)
    else
      match findSlashNumRuns url with
      | [n] =>
        let v := digitsVal (n.data.drop 1)
        if v < 2 ^ 63 then (v, none) else (0, some .atoiRange)
      | _ => (0, some .extraction)

/-! ### Snapshot fetcher `fetchLiveList`

The Go loop `for count := 10000; count < 1e9; count *= 10` requests page
sizes 10000, 10^5, 10^6, 10^7, 10^8: after a request at 10^8 that did not
break, the `count == 1e8` check panics before the multiplication, so no
further size is visited.  The loop is embedded structurally over this
explicit list of page sizes, with the same per-iteration branching.  The
upstream is an oracle from the requested page size to the observed
response; the embedding also records the sequence of sizes requested. -/

/-- The page sizes the escalation loop can visit, in order. -/
def pageSizes : List Nat := [10000, 100000, 1000000, 10000000, 100000000]

/-- One session descriptor of the `liveList` array of a parsed response. -/
structure RawRoom where
  liveId     : String
  authorId   : Int
  userName   : String
  streamName : String
  createTime : Int
  title      : String
  deriving DecidableEq, Repr

/-- Population of a pooled `live` record from a descriptor: the identity
fields are copied and the enrichment fields are explicitly reset. -/
def mkLive (r : RawRoom) : live :=
  { liveID := r.liveId
    uid := r.authorId
    name := r.userName
    streamName := r.streamName
    startTime := r.createTime
    title := r.title
    duration := 0
    playbackURL := ""
    backupURL := ""
    liveCutNum := 0 }

/-- Upstream response to one listing request, as observed by
`fetchLiveList` after transport/gzip/JSON handling. -/
inductive ListResp where
  | transportFail                                   -- `client.Do` failed
  | unparseable                                     -- gunzip or JSON parse failed
  | badResult                                       -- `result` missing or ≠ 0
  | ok (pcursor : String) (liveList : List RawRoom) -- parsed, `result` = 0
  deriving DecidableEq, Repr

/-- Failure reasons of `fetchLiveList` (each a recovered panic). -/
inductive FetchErr where
  | transport  -- `checkErr` on the transport error
  | parse      -- `checkErr` on gunzip / `ParseBytes`
  | status     -- the `result` check panicked
  | ceiling    -- `count == 1e8` reached without `pcursor == "no_more"`
  deriving DecidableEq, Repr

/-- Outcome of `fetchLiveList`: its return value together with the page
sizes it requested, in order. -/
structure FetchOut where
  result    : Except FetchErr (List live)
  requested : List Nat

/-- Whether a response signals termination of the escalation
(`pcursor == "no_more"`). -/
def respNoMore : ListResp → Bool
  | .ok p _ => p = "no_more"
  | _ => false

/-- The escalation loop of `fetchLiveList` over the remaining page sizes.
On `pcursor == "no_more"` the loop breaks and the session list is built
from the breaking response's `liveList`; reaching the request at `1e8`
without breaking panics (recovered as `FetchErr.ceiling`).  The `[]`
case is unreachable from the entry point because the `count == 1e8`
check fires on the last element of `pageSizes` first. -/
def fetchLoop (upstream : Nat → ListResp) (acc : List Nat) :
    List Nat → FetchOut
  | [] => ⟨.error .ceiling, acc⟩
  | count :: rest =>
    match upstream count with
    | .transportFail => ⟨.error .transport, acc ++ [count]⟩
    | .unparseable => ⟨.error .parse, acc ++ [count]⟩
    | .badResult => ⟨.error .status, acc ++ [count]⟩
    | .ok pcursor rooms =>
      if pcursor = "no_more" then ⟨.ok (rooms.map mkLive), acc ++ [count]⟩
      else if count = 100000000 then ⟨.error .ceiling, acc ++ [count]⟩
      else fetchLoop upstream (acc ++ [count]) rest

/-- `fetchLiveList` from the Go source, with the transport abstracted as
the `upstream` oracle. -/
def fetchLiveList (upstream : Nat → ListResp) : FetchOut :=
  fetchLoop upstream [] pageSizes

/-! ### The reconciliation loop body of `main`

The loop filters both the started and the ended set by the hardcoded
owner id `646973`; filtered-out sessions are skipped with `continue`
(no persistence call, no goroutine), yet the whole `newList` becomes
`oldList` for the next iteration.  Persistence calls are recorded as
`DBAction` values, spawned goroutines as `Goroutine` values. -/

/-- The hardcoded watched owner id of the loop. -/
def watchedUID : Int := 646973

/-- A persistence call made by the loop or an enrichment task. -/
inductive DBAction where
  | insert (l : live)
  | updateLiveCutNum (liveID : String) (num : Nat)
  | updateLiveDuration (liveID : String) (duration : Int)
  deriving DecidableEq, Repr

/-- A background enrichment goroutine spawned by the loop. -/
inductive Goroutine where
  | cut (uid : Int) (liveID : String)  -- cut-number lookup goroutine
  | summary (l : live)                 -- end-of-session summary goroutine
  deriving DecidableEq, Repr

/-- The `insert(ctx, l)` calls of one iteration's started loop: one per
newly started session of the watched owner. -/
def iterInserts (prev cur : List live) : List DBAction :=
  ((started prev cur).filter (fun l => decide (l.uid = watchedUID))).map
    (fun l => DBAction.insert l)

/-- The cut-number goroutines spawned by one iteration's started loop. -/
def startedTasks (prev cur : List live) : List Goroutine :=
  ((started prev cur).filter (fun l => decide (l.uid = watchedUID))).map
    (fun l => Goroutine.cut l.uid l.liveID)

/-- The summary goroutines spawned by one iteration's ended loop. -/
def endedTasks (prev cur : List live) : List Goroutine :=
  ((ended prev cur).filter (fun l => decide (l.uid = watchedUID))).map
    (fun l => Goroutine.summary l)

/-- The snapshot stored for the next diff (`oldList = newList`). -/
def nextSnapshot (_prev cur : List live) : List live := cur

/-- The cut-number goroutine body: `fetchLiveCut` wrapped in `runThrice`;
exhausted retries are logged and abandoned, success calls
`updateLiveCutNum`.  The oracle gives the outcome of each attempt. -/
def cutTask {E : Type} (fetch : Nat → Except E Nat) (liveID : String) :
    List DBAction :=
  match (runThrice fetch).result with
  | .error _ => []
  | .ok num => [DBAction.updateLiveCutNum liveID num]

/-- The upstream summary of an ended session (`acfundanmu.Summary`); only
its `Duration` field (milliseconds) is used by the program. -/
structure Summary where
  Duration : Int
  deriving DecidableEq, Repr

/-- The end-of-session goroutine body: after a 10-second grace sleep,
`ac.GetSummary` wrapped in `runThrice`; exhausted retries are logged and
abandoned; a zero reported duration is logged and abandoned; otherwise
the session is inserted and its duration updated. -/
def endTask {E : Type} (fetch : Nat → Except E Summary) (l : live) :
    List DBAction :=
  match (runThrice fetch).result with
  | .error _ => []
  | .ok s =>
    if s.Duration = 0 then []
    else [DBAction.insert l, DBAction.updateLiveDuration l.liveID s.Duration]

/-- Outcome of one iteration of the polling loop: either the fatal
`return` after `runThrice(fetchLiveList)` exhausts its retries, or the
new snapshot together with the persistence calls and spawned tasks. -/
inductive StepResult where
  | fatal
  | step (snapshot : List live) (inserts : List DBAction) (tasks : List Goroutine)
  deriving DecidableEq, Repr

/-- One iteration of the polling loop of `main`, with the snapshot fetch
attempts given by the oracle `fetch`. -/
def loopStep {E : Type} (fetch : Nat → Except E (List live))
    (prev : List live) : StepResult :=
  match (runThrice fetch).result with
  | .error _ => .fatal
  | .ok cur =>
    .step (nextSnapshot prev cur) (iterInserts prev cur)
      (startedTasks prev cur ++ endedTasks prev cur)

/-! ### `getPlayback` post-processing

After a successful `ac.GetPlayback`, the code disambiguates the CDN URLs
with the external collaborator `playback.Distinguish()` (an oracle here,
returning the Aliyun and Tencent URLs it classified, empty when not
found).  Only when both are non-empty are the fields reassigned;
otherwise a warning is logged and the playback is left as returned by
the lookup. -/

/-- The playback record (`acfundanmu.Playback`); only the two URL fields
are touched by `getPlayback`. -/
structure Playback where
  URL       : String
  BackupURL : String
  deriving DecidableEq, Repr

/-- The post-lookup step of `getPlayback`: `aliURL, txURL :=
playback.Distinguish()` is the oracle result passed in. -/
def getPlaybackPost (p : Playback) (aliURL txURL : String) : Playback :=
  if p.URL ≠ "" then
    if aliURL ≠ "" ∧ txURL ≠ "" then { p with URL := aliURL, BackupURL := txURL }
    else p
  else p

/-! ## Theorems -/

section DiffLemmas

/-- Membership of an id among the started sessions' ids. -/
lemma mem_liveIDs_started (prev cur : List live) (k : String) :
    k ∈ liveIDs (started prev cur) ↔ k ∈ liveIDs cur ∧ k ∉ liveIDs prev := by
  constructor
  · intro h
    simp only [liveIDs, started, List.mem_map, List.mem_filter,
      decide_eq_true_eq] at h
    obtain ⟨l, ⟨hl, hnp⟩, hk⟩ := h
    subst hk
    exact ⟨List.mem_map_of_mem _ hl,
      by simpa [liveIDs, List.mem_map] using hnp⟩
  · rintro ⟨hk, hnp⟩
    simp only [liveIDs, List.mem_map] at hk
    obtain ⟨l, hl, hk⟩ := hk
    subst hk
    simp only [liveIDs, started, List.mem_map, List.mem_filter,
      decide_eq_true_eq]
    exact ⟨l, ⟨hl, by simpa [liveIDs, List.mem_map] using hnp⟩, rfl⟩

/-- Membership of an id among the ended sessions' ids. -/
lemma mem_liveIDs_ended (prev cur : List live) (k : String) :
    k ∈ liveIDs (ended prev cur) ↔ k ∈ liveIDs prev ∧ k ∉ liveIDs cur := by
  constructor
  · intro h
    simp only [liveIDs, ended, List.mem_map, List.mem_filter,
      decide_eq_true_eq] at h
    obtain ⟨l, ⟨hl, hnc⟩, hk⟩ := h
    subst hk
    exact ⟨List.mem_map_of_mem _ hl,
      by simpa [liveIDs, List.mem_map] using hnc⟩
  · rintro ⟨hk, hnc⟩
    simp only [liveIDs, List.mem_map] at hk
    obtain ⟨l, hl, hk⟩ := hk
    subst hk
    simp only [liveIDs, ended, List.mem_map, List.mem_filter,
      decide_eq_true_eq]
    exact ⟨l, ⟨hl, by simpa [liveIDs, List.mem_map] using hnc⟩, rfl⟩

/-- Membership of an id among the continuing sessions' ids. -/
lemma mem_liveIDs_continuing (prev cur : List live) (k : String) :
    k ∈ liveIDs (continuing prev cur) ↔ k ∈ liveIDs cur ∧ k ∈ liveIDs prev := by
  constructor
  · intro h
    simp only [liveIDs, continuing, List.mem_map, List.mem_filter,
      decide_eq_true_eq] at h
    obtain ⟨l, ⟨hl, hp⟩, hk⟩ := h
    subst hk
    exact ⟨List.mem_map_of_mem _ hl,
      by simpa [liveIDs, List.mem_map] using hp⟩
  · rintro ⟨hk, hp⟩
    simp only [liveIDs, List.mem_map] at hk
    obtain ⟨l, hl, hk⟩ := hk
    subst hk
    simp only [liveIDs, continuing, List.mem_map, List.mem_filter,
      decide_eq_true_eq]
    exact ⟨l, ⟨hl, by simpa [liveIDs, List.mem_map] using hp⟩, rfl⟩

end DiffLemmas

/-- Claim C1: for every pair of snapshots processed by one loop iteration,
the sessions handled as started and those handled as ended are disjoint
(by `liveID`), and started, ended and the sessions present in both
snapshots together cover exactly the union of the two snapshots' ids.
The diff is a pure function of the two maps (the loops only read them),
so neither input is mutated. -/
theorem reconcile_diff_disjoint_covers (prev cur : List live) (k : String) :
    ¬(k ∈ liveIDs (started prev cur) ∧ k ∈ liveIDs (ended prev cur)) ∧
    (k ∈ liveIDs (started prev cur) ∨ k ∈ liveIDs (continuing prev cur) ∨
        k ∈ liveIDs (ended prev cur) ↔
      k ∈ liveIDs prev ∨ k ∈ liveIDs cur) := by
  rw [mem_liveIDs_started, mem_liveIDs_ended, mem_liveIDs_continuing]
  constructor
  · tauto
  · by_cases hp : k ∈ liveIDs prev <;> by_cases hc : k ∈ liveIDs cur <;> tauto

/-- An operation that fails on every invocation. -/
def alwaysFail : Nat → Except Unit Unit := fun _ => .error ()

/-- An operation that fails on its first two invocations and succeeds on
the third. -/
def failTwice : Nat → Except Unit Unit :=
  fun i => if i < 2 then .error () else .ok ()

/-- Claim C2 counterexample: an always-failing operation makes `runThrice`
sleep 30 seconds, not approximately 20 — the 10-second `time.Sleep` also
runs after the third failed attempt, before the aggregate error is
returned. -/
theorem runThrice_backoff_cex :
    (runThrice alwaysFail).calls = 3 ∧ (runThrice alwaysFail).slept = 30 ∧
    ¬((runThrice alwaysFail).slept = 20) := by
  refine ⟨rfl, rfl, by decide⟩

/-- Claim C2 (amended): `runThrice` invokes the operation at most 3 times;
an operation failing exactly twice then succeeding returns success after
exactly 3 invocations and 20 seconds of sleep; an always-failing
operation returns the aggregate failure carrying the last underlying
cause after exactly 3 invocations and 30 seconds of sleep (the constant
10-second delay also follows the final failed attempt). -/
theorem runThrice_retry_behavior {E A : Type} (f : Nat → Except E A) :
    (runThrice f).calls ≤ 3 ∧
    (∀ e0 e1 a, f 0 = .error e0 → f 1 = .error e1 → f 2 = .ok a →
      runThrice f = ⟨.ok a, 3, 20⟩) ∧
    (∀ e0 e1 e2, f 0 = .error e0 → f 1 = .error e1 → f 2 = .error e2 →
      runThrice f = ⟨.error (some e2), 3, 30⟩) := by
  refine ⟨?_, ?_, ?_⟩
  · rcases h0 : f 0 with e0 | a0 <;>
      rcases h1 : f 1 with e1 | a1 <;>
      rcases h2 : f 2 with e2 | a2 <;>
      simp [runThrice, runThriceAux, h0, h1, h2]
  · intro e0 e1 a h0 h1 h2
    simp [runThrice, runThriceAux, h0, h1, h2]
  · intro e0 e1 e2 h0 h1 h2
    simp [runThrice, runThriceAux, h0, h1, h2]

/-- Claim C2 witness: the two retry scenarios at concrete operations. -/
theorem runThrice_retry_behavior_witness :
    runThrice failTwice = ⟨.ok (), 3, 20⟩ ∧
    runThrice alwaysFail = ⟨.error (some ()), 3, 30⟩ :=
  ⟨(runThrice_retry_behavior failTwice).2.1 () () () rfl rfl rfl,
   (runThrice_retry_behavior alwaysFail).2.2 () () () rfl rfl rfl⟩

/-- Claim C4: for a ready cut-info response (`liveCutStatus = 1`),
`fetchLiveCut` extracts the cut number by matching `/[0-9]+` in the
returned URL, requiring exactly one match: `".../foo/12345/bar"` yields
`(12345, no error)`, while a URL with a number of numeric runs other
than one yields the recovered extraction error `(0, some extraction)` —
the panic is recovered, never propagated. -/
theorem fetchLiveCut_extraction (url : String) :
    fetchLiveCut (.ok 1 ".../foo/12345/bar") = (12345, none) ∧
    ((findSlashNumRuns url).length ≠ 1 →
      fetchLiveCut (.ok 1 url) = (0, some .extraction)) := by
  constructor
  · decide
  · intro h
    rcases hn : findSlashNumRuns url with _ | ⟨n, _ | ⟨m, t⟩⟩
    · simp [fetchLiveCut, hn]
    · exact absurd (by simp [hn]) h
    · simp [fetchLiveCut, hn]

/-- Claim C4 witness: a URL with two numeric runs is rejected with the
extraction error. -/
theorem fetchLiveCut_extraction_witness :
    (findSlashNumRuns "/1/2").length ≠ 1 ∧
    fetchLiveCut (.ok 1 "/1/2") = (0, some .extraction) :=
  ⟨by decide, (fetchLiveCut_extraction "/1/2").2 (by decide)⟩

/-- Claim C5: a cut-info response whose status is not the ready value 1
makes `fetchLiveCut` return `(0, no error)`, whatever the URL field
holds. -/
theorem fetchLiveCut_nonready (status : Int) (url : String)
    (h : status ≠ 1) : fetchLiveCut (.ok status url) = (0, none) := by
  simp [fetchLiveCut, h]

/-- Claim C5 witness: status 0 with an otherwise extractable URL. -/
theorem fetchLiveCut_nonready_witness :
    fetchLiveCut (.ok 0 "/123") = (0, none) :=
  fetchLiveCut_nonready 0 "/123" (by decide)

/-- A concrete session of an unwatched owner (uid 1). -/
def unwatchedLive : live := ⟨"lid1", 1, "n1", "s1", 0, "t1", 0, "", "", 0⟩

/-- A summary fetch whose first attempt already reports duration 0. -/
def zeroDurationFetch : Nat → Except Unit Summary := fun _ => .ok ⟨0⟩

/-- A snapshot fetch that fails on every attempt. -/
def failingListFetch : Nat → Except Unit (List live) := fun _ => .error ()

/-- A cut-number fetch that fails on every attempt. -/
def failingCutFetch : Nat → Except Unit Nat := fun _ => .error ()

/-- A summary fetch that fails on every attempt. -/
def failingSummaryFetch : Nat → Except Unit Summary := fun _ => .error ()

/-- Claim C6: when the summary lookup of an ended session succeeds but
reports duration 0, the end-side task logs and abandons: it performs no
persistence call at all — neither the insert nor the duration update —
and schedules no further retry. -/
theorem endTask_zero_duration_abandons {E : Type}
    (fetch : Nat → Except E Summary) (l : live) (s : Summary)
    (hok : (runThrice fetch).result = .ok s) (hzero : s.Duration = 0) :
    endTask fetch l = [] := by
  simp [endTask, hok, hzero]

/-- Claim C6 witness: a summary lookup succeeding with duration 0. -/
theorem endTask_zero_duration_abandons_witness :
    endTask zeroDurationFetch unwatchedLive = [] :=
  endTask_zero_duration_abandons zeroDurationFetch unwatchedLive ⟨0⟩ rfl rfl

/-- Claim C8: a session whose owner is not the watched owner id is kept
in the snapshot stored for the next diff (`oldList = newList` is
unconditional), but the loop never calls `insert` for it and never
spawns a cut-number or summary goroutine for it, whether it falls in
the started or the ended set. -/
theorem unwatched_owner_observed_only (prev cur : List live) (l : live)
    (h : l.uid ≠ watchedUID) :
    (l ∈ cur → l ∈ nextSnapshot prev cur) ∧
    DBAction.insert l ∉ iterInserts prev cur ∧
    Goroutine.cut l.uid l.liveID ∉ startedTasks prev cur ∧
    Goroutine.summary l ∉ endedTasks prev cur := by
  refine ⟨fun hm => hm, ?_, ?_, ?_⟩
  · intro hmem
    simp only [iterInserts, List.mem_map, List.mem_filter,
      decide_eq_true_eq, DBAction.insert.injEq] at hmem
    obtain ⟨x, ⟨-, hx⟩, heq⟩ := hmem
    exact h (heq ▸ hx)
  · intro hmem
    simp only [startedTasks, List.mem_map, List.mem_filter,
      decide_eq_true_eq, Goroutine.cut.injEq] at hmem
    obtain ⟨x, ⟨-, hx⟩, hu, -⟩ := hmem
    exact h (hu ▸ hx)
  · intro hmem
    simp only [endedTasks, List.mem_map, List.mem_filter,
      decide_eq_true_eq, Goroutine.summary.injEq] at hmem
    obtain ⟨x, ⟨-, hx⟩, heq⟩ := hmem
    exact h (heq ▸ hx)

/-- Claim C8 witness: a started session of owner 1 is kept in the next
snapshot but triggers no insert and no goroutine. -/
theorem unwatched_owner_observed_only_witness :
    (unwatchedLive ∈ [unwatchedLive] →
      unwatchedLive ∈ nextSnapshot [] [unwatchedLive]) ∧
    DBAction.insert unwatchedLive ∉ iterInserts [] [unwatchedLive] ∧
    Goroutine.cut unwatchedLive.uid unwatchedLive.liveID ∉
      startedTasks [] [unwatchedLive] ∧
    Goroutine.summary unwatchedLive ∉ endedTasks [] [unwatchedLive] :=
  unwatched_owner_observed_only [] [unwatchedLive] unwatchedLive (by decide)

/-- Claim C9: when the snapshot fetch exhausts its retries the loop
iteration is fatal (`main` returns); when a cut-number or summary fetch
exhausts its retries the task only logs and returns, performing no
persistence call, so the corresponding field keeps its zero default and
no further attempt is made. -/
theorem exhausted_retries_policy {E1 E2 E3 : Type}
    (snapFetch : Nat → Except E1 (List live)) (prev : List live)
    (eo1 : Option E1) (cutFetch : Nat → Except E2 Nat) (liveID : String)
    (eo2 : Option E2) (sumFetch : Nat → Except E3 Summary) (l : live)
    (eo3 : Option E3) :
    ((runThrice snapFetch).result = .error eo1 →
      loopStep snapFetch prev = .fatal) ∧
    ((runThrice cutFetch).result = .error eo2 →
      cutTask cutFetch liveID = []) ∧
    ((runThrice sumFetch).result = .error eo3 →
      endTask sumFetch l = []) := by
  refine ⟨fun h => ?_, fun h => ?_, fun h => ?_⟩
  · simp [loopStep, h]
  · simp [cutTask, h]
  · simp [endTask, h]

/-- Claim C9 witness: always-failing fetches for all three lookups. -/
theorem exhausted_retries_policy_witness :
    loopStep failingListFetch [] = .fatal ∧
    cutTask failingCutFetch "lid1" = [] ∧
    endTask failingSummaryFetch unwatchedLive = [] :=
  ⟨(exhausted_retries_policy failingListFetch [] (some ()) failingCutFetch
      "lid1" (some ()) failingSummaryFetch unwatchedLive (some ())).1 rfl,
   (exhausted_retries_policy failingListFetch [] (some ()) failingCutFetch
      "lid1" (some ()) failingSummaryFetch unwatchedLive (some ())).2.1 rfl,
   (exhausted_retries_policy failingListFetch [] (some ()) failingCutFetch
      "lid1" (some ()) failingSummaryFetch unwatchedLive (some ())).2.2 rfl⟩

/-- A playback whose lookup returned a raw URL the disambiguation cannot
classify. -/
def rawPlayback : Playback := ⟨"raw-url", "raw-backup"⟩

/-- Claim C7 counterexample: when the disambiguation is ambiguous (here
both classified URLs come back empty), `getPlayback` leaves the playback
exactly as the lookup returned it — the URL field stays `"raw-url"`,
it is not left empty as the claim states. -/
theorem getPlayback_ambiguous_cex :
    getPlaybackPost rawPlayback "" "" = rawPlayback ∧
    ¬((getPlaybackPost rawPlayback "" "").URL = "" ∧
      (getPlaybackPost rawPlayback "" "").BackupURL = "") := by
  refine ⟨rfl, by decide⟩

/-- Claim C7 (amended): if the disambiguation finds exactly one URL of
each provider (both classified URLs non-empty) and the looked-up URL is
non-empty, the Aliyun URL is assigned to the playback URL field and the
Tencent URL to the backup field; if the disambiguation is ambiguous, a
warning is logged and both fields are left unchanged, holding exactly
what the lookup returned — no reclassified assignment is performed. -/
theorem getPlayback_disambiguation (p : Playback) (aliURL txURL : String) :
    (p.URL ≠ "" → aliURL ≠ "" → txURL ≠ "" →
      getPlaybackPost p aliURL txURL =
        { p with URL := aliURL, BackupURL := txURL }) ∧
    (¬(aliURL ≠ "" ∧ txURL ≠ "") → getPlaybackPost p aliURL txURL = p) := by
  constructor
  · intro h1 h2 h3
    simp [getPlaybackPost, h1, h2, h3]
  · intro h
    by_cases hu : p.URL = "" <;> simp [getPlaybackPost, hu, h]

/-- Claim C7 witness: one unambiguous and one ambiguous disambiguation. -/
theorem getPlayback_disambiguation_witness :
    getPlaybackPost ⟨"raw-url", ""⟩ "ali" "tx" = ⟨"ali", "tx"⟩ ∧
    getPlaybackPost rawPlayback "" "tx" = rawPlayback :=
  ⟨(getPlayback_disambiguation ⟨"raw-url", ""⟩ "ali" "tx").1
      (by decide) (by decide) (by decide),
   (getPlayback_disambiguation rawPlayback "" "tx").2 (by simp)⟩

/-- Every successful `fetchLoop` run returns a list built by `mkLive`
from some response's descriptors. -/
lemma fetchLoop_ok_shape (u : Nat → ListResp) :
    ∀ (cs acc : List Nat) (lst : List live),
      (fetchLoop u acc cs).result = .ok lst →
      ∃ rooms : List RawRoom, lst = rooms.map mkLive := by
  intro cs
  induction cs with
  | nil =>
    intro acc lst h
    simp [fetchLoop] at h
  | cons c rest ih =>
    intro acc lst h
    rcases hc : u c with _ | _ | _ | ⟨p, rooms⟩ <;>
      simp only [fetchLoop, hc] at h
    · exact absurd h (by simp)
    · exact absurd h (by simp)
    · exact absurd h (by simp)
    · by_cases hp : p = "no_more"
      · rw [if_pos hp] at h
        simp only [Except.ok.injEq] at h
        exact ⟨rooms, h.symm⟩
      · rw [if_neg hp] at h
        by_cases hc8 : c = 100000000
        · rw [if_pos hc8] at h
          exact absurd h (by simp)
        · rw [if_neg hc8] at h
          exact ih _ _ h

/-- A concrete session descriptor. -/
def sampleRoom : RawRoom := ⟨"lid", 1, "n", "s", 5, "t"⟩

/-- An upstream that terminates immediately with one session. -/
def sampleUpstream : Nat → ListResp := fun _ => .ok "no_more" [sampleRoom]

/-- Claim C10: the fetchers recover every internal failure into an error
return (the embedding is total, with each recovered panic an explicit
error value): whenever `fetchLiveCut` returns a non-nil error its number
is exactly 0, and every session in a successful `fetchLiveList` result
has duration 0, cut number 0 and empty playback and backup URLs — the
pooled object's enrichment fields are explicitly reset. -/
theorem fetchers_no_panic_clean_fields :
    (∀ resp, (fetchLiveCut resp).2 ≠ none → (fetchLiveCut resp).1 = 0) ∧
    (∀ (u : Nat → ListResp) (lst : List live),
      (fetchLiveList u).result = .ok lst →
      ∀ l ∈ lst, l.duration = 0 ∧ l.liveCutNum = 0 ∧
        l.playbackURL = "" ∧ l.backupURL = "") := by
  constructor
  · intro resp h
    rcases resp with _ | _ | _ | ⟨status, url⟩
    · rfl
    · rfl
    · rfl
    · simp only [fetchLiveCut] at h ⊢
      by_cases hs : status ≠ 1
      · rw [if_pos hs]
      · rw [if_neg hs] at h ⊢
        rcases hn : findSlashNumRuns url with _ | ⟨n, _ | _⟩
        · rfl
        · by_cases hv : digitsVal n.data.tail < 9223372036854775808
          · simp [hn, hv] at h
          · simp [hv]
        · rfl
  · intro u lst h l hl
    obtain ⟨rooms, rfl⟩ := fetchLoop_ok_shape u pageSizes [] lst h
    simp only [List.mem_map] at hl
    obtain ⟨r, -, rfl⟩ := hl
    exact ⟨rfl, rfl, rfl, rfl⟩

/-- Claim C10 witness: a transport failure of the cut fetch and a
one-session successful list fetch. -/
theorem fetchers_no_panic_clean_fields_witness :
    (fetchLiveCut .transportFail).1 = 0 ∧
    ((mkLive sampleRoom).duration = 0 ∧ (mkLive sampleRoom).liveCutNum = 0 ∧
      (mkLive sampleRoom).playbackURL = "" ∧
      (mkLive sampleRoom).backupURL = "") :=
  ⟨fetchers_no_panic_clean_fields.1 .transportFail (by decide),
   fetchers_no_panic_clean_fields.2 sampleUpstream [mkLive sampleRoom] rfl
     (mkLive sampleRoom) (by simp)⟩

/-- Shape of a `fetchLoop` run: it requests a non-empty initial segment
of the remaining page sizes, never continues past a response signalling
`no_more`, and ends in an error whenever no response signals `no_more`. -/
lemma fetchLoop_shape (u : Nat → ListResp) :
    ∀ (rest : List Nat) (c : Nat) (acc : List Nat),
      ∃ k, 1 ≤ k ∧ k ≤ rest.length + 1 ∧
        (fetchLoop u acc (c :: rest)).requested = acc ++ (c :: rest).take k ∧
        (∀ d ∈ (c :: rest).take (k - 1), respNoMore (u d) = false) ∧
        ((∀ d ∈ c :: rest, respNoMore (u d) = false) →
          ∃ e, (fetchLoop u acc (c :: rest)).result = .error e) := by
  intro rest
  induction rest with
  | nil =>
    intro c acc
    refine ⟨1, le_refl 1, le_refl 1, ?_⟩
    rcases hc : u c with _ | _ | _ | ⟨p, rooms⟩
    · exact ⟨by simp [fetchLoop, hc], by simp,
        fun _ => ⟨.transport, by simp [fetchLoop, hc]⟩⟩
    · exact ⟨by simp [fetchLoop, hc], by simp,
        fun _ => ⟨.parse, by simp [fetchLoop, hc]⟩⟩
    · exact ⟨by simp [fetchLoop, hc], by simp,
        fun _ => ⟨.status, by simp [fetchLoop, hc]⟩⟩
    · by_cases hp : p = "no_more"
      · refine ⟨by simp [fetchLoop, hc, hp], by simp, fun H => ?_⟩
        have hfalse := H c (List.mem_cons_self c [])
        rw [hc] at hfalse
        simp [respNoMore, hp] at hfalse
      · by_cases hc8 : c = 100000000
        · subst hc8
          exact ⟨by simp [fetchLoop, hc, hp], by simp,
            fun _ => ⟨.ceiling, by simp [fetchLoop, hc, hp]⟩⟩
        · exact ⟨by simp [fetchLoop, hc, hp, hc8], by simp,
            fun _ => ⟨.ceiling, by simp [fetchLoop, hc, hp, hc8]⟩⟩
  | cons c2 rest2 ih =>
    intro c acc
    rcases hc : u c with _ | _ | _ | ⟨p, rooms⟩
    · exact ⟨1, le_refl 1, by omega, by simp [fetchLoop, hc], by simp,
        fun _ => ⟨.transport, by simp [fetchLoop, hc]⟩⟩
    · exact ⟨1, le_refl 1, by omega, by simp [fetchLoop, hc], by simp,
        fun _ => ⟨.parse, by simp [fetchLoop, hc]⟩⟩
    · exact ⟨1, le_refl 1, by omega, by simp [fetchLoop, hc], by simp,
        fun _ => ⟨.status, by simp [fetchLoop, hc]⟩⟩
    · by_cases hp : p = "no_more"
      · refine ⟨1, le_refl 1, by omega, by simp [fetchLoop, hc, hp],
          by simp, fun H => ?_⟩
        have hfalse := H c (List.mem_cons_self c (c2 :: rest2))
        rw [hc] at hfalse
        simp [respNoMore, hp] at hfalse
      · by_cases hc8 : c = 100000000
        · subst hc8
          exact ⟨1, le_refl 1, by omega, by simp [fetchLoop, hc, hp],
            by simp, fun _ => ⟨.ceiling, by simp [fetchLoop, hc, hp]⟩⟩
        · have heq : fetchLoop u acc (c :: c2 :: rest2) =
              fetchLoop u (acc ++ [c]) (c2 :: rest2) := by
            simp [fetchLoop, hc, hp, hc8]
          obtain ⟨k', hk1, hk2, hreq, htake, herr⟩ := ih c2 (acc ++ [c])
          obtain ⟨k'', rfl⟩ : ∃ k'', k' = k'' + 1 := ⟨k' - 1, by omega⟩
          refine ⟨k'' + 2, by omega, by simp only [List.length_cons]; omega,
            ?_, ?_, ?_⟩
          · rw [heq, hreq]
            simp [List.take_succ_cons]
          · intro d hd
            have harith : k'' + 2 - 1 = k'' + 1 := by omega
            rw [harith, List.take_succ_cons] at hd
            simp only [List.mem_cons] at hd
            rcases hd with rfl | hd
            · rw [hc]
              simp [respNoMore, hp]
            · have := htake d
              simp only [Nat.add_sub_cancel] at this
              exact this hd
          · intro H
            obtain ⟨e, he⟩ :=
              herr (fun d hd => H d (List.mem_cons_of_mem _ hd))
            exact ⟨e, heq ▸ he⟩

/-- A `no_more` response breaks the escalation loop immediately. -/
lemma fetchLoop_cons_noMore (u : Nat → ListResp) (acc : List Nat)
    (c : Nat) (rest : List Nat) (rooms : List RawRoom)
    (h : u c = .ok "no_more" rooms) :
    fetchLoop u acc (c :: rest) = ⟨.ok (rooms.map mkLive), acc ++ [c]⟩ := by
  simp only [fetchLoop, h]
  rw [if_pos trivial]

/-- An upstream that never signals termination (always a bad status). -/
def neverTerminating : Nat → ListResp := fun _ => .badResult

/-- An upstream that signals `no_more` on the very first request. -/
def immediateNoMore : Nat → ListResp := fun _ => .ok "no_more" []

/-- Claim C3: the page-size escalation of `fetchLiveList` is bounded: it
requests a non-empty initial segment of the geometric sequence
10000·10^i (i < 5), never continues past a `no_more` response, returns
an error (transport, parse, status or ceiling) whenever the upstream
never signals termination, returns the snapshot as soon as the first
response signals `no_more`, and the visited page sizes grow by a factor
of 10 from 10000. -/
theorem fetchLiveList_escalation_bounded (u : Nat → ListResp) :
    (∃ k, 1 ≤ k ∧ k ≤ 5 ∧
      (fetchLiveList u).requested = pageSizes.take k ∧
      ∀ d ∈ pageSizes.take (k - 1), respNoMore (u d) = false) ∧
    ((∀ c, respNoMore (u c) = false) →
      ∃ e, (fetchLiveList u).result = .error e) ∧
    (∀ rooms : List RawRoom, u 10000 = .ok "no_more" rooms →
      (fetchLiveList u).result = .ok (rooms.map mkLive) ∧
      (fetchLiveList u).requested = [10000]) ∧
    (pageSizes = [10000, 100000, 1000000, 10000000, 100000000] ∧
      ∀ i < 4, pageSizes.getD (i + 1) 0 = 10 * pageSizes.getD i 0) := by
  obtain ⟨k, hk1, hk5, hreq, htake, herr⟩ :=
    fetchLoop_shape u [100000, 1000000, 10000000, 100000000] 10000 []
  refine ⟨⟨k, hk1, by simpa using hk5, by simpa using hreq, htake⟩,
    fun H => herr (fun d _ => H d), fun rooms h => ?_, rfl, by decide⟩
  have key : fetchLiveList u = ⟨.ok (rooms.map mkLive), [10000]⟩ := by
    show fetchLoop u [] (10000 :: [100000, 1000000, 10000000, 100000000]) = _
    rw [fetchLoop_cons_noMore u [] 10000 _ rooms h]
    rfl
  rw [key]
  exact ⟨rfl, rfl⟩

/-- Claim C3 witness: a never-terminating upstream yields an error; an
immediately terminating upstream yields the snapshot after one request. -/
theorem fetchLiveList_escalation_bounded_witness :
    (∃ e, (fetchLiveList neverTerminating).result = .error e) ∧
    (fetchLiveList immediateNoMore).result = .ok [] ∧
    (fetchLiveList immediateNoMore).requested = [10000] :=
  ⟨(fetchLiveList_escalation_bounded neverTerminating).2.1 (fun _ => rfl),
   ((fetchLiveList_escalation_bounded immediateNoMore).2.2.1 [] rfl).1,
   ((fetchLiveList_escalation_bounded immediateNoMore).2.2.1 [] rfl).2⟩
